import Mathlib

/-!
Shallow embedding of the dashboardx model-routing / agent-orchestration layer
(`backend/app/models/registry.py`, `backend/app/models/router.py`,
`backend/app/agents/base.py`, `backend/app/agents/adapters/n8n_adapter.py`)
together with theorems settling the frozen claims about it.

Machine reals (Python floats used for costs and scores) are modelled as
rationals; timestamps as naturals; the HTTP layer as an explicit outcome
per attempt.  All definitions are executable.
-/

namespace DashboardX

/-! ### String helpers (Python `in`, `lower`, `strip`, `split`) -/

/-- Python `list/str` prefix test on character lists. -/
def listStarts : List Char → List Char → Bool
  | [], _ => true
  | _ :: _, [] => false
  | a :: as_, b :: bs => a == b && listStarts as_ bs

/-- Python `needle in hay` substring test on character lists. -/
def listHasSub (needle : List Char) : List Char → Bool
  | [] => needle.isEmpty
  | c :: rest => listStarts needle (c :: rest) || listHasSub needle rest

/-- Python `needle in hay` for strings. -/
def strHasSub (needle hay : String) : Bool :=
  listHasSub needle.toList hay.toList

/-- Python `str.lower()` (ASCII suffices for the model names involved). -/
def strLower (s : String) : String :=
  String.mk (s.toList.map Char.toLower)

/-- Worker for Python `str.split(sep)` with non-empty `sep`: leftmost
non-overlapping occurrences, fuelled for structural recursion (the fuel is
at least the character count plus one, so it never runs out). -/
def splitGo (sep : List Char) : Nat → List Char → List Char → List (List Char)
  | 0, s, acc => [acc.reverse ++ s]
  | fuel + 1, s, acc =>
      match s with
      | [] => [acc.reverse]
      | c :: rest =>
          if listStarts sep s then
            acc.reverse :: splitGo sep fuel (s.drop sep.length) []
          else
            splitGo sep fuel rest (c :: acc)

/-- Python `str.split(sep)` for a non-empty separator (Python rejects an
empty separator with `ValueError`; the adapter always passes `". "`). -/
def pySplit (s sep : String) : List String :=
  (splitGo sep.toList (s.toList.length + 1) s.toList []).map
    (fun cs => String.mk cs)

/-- Python `str.strip()`: drop leading and trailing whitespace. -/
def pyStrip (s : String) : String :=
  String.mk
    (((s.toList.dropWhile Char.isWhitespace).reverse.dropWhile
        Char.isWhitespace).reverse)

/-- Python string truthiness (`if sentence.strip():`): non-empty. -/
def strTruthy (s : String) : Bool :=
  !s.toList.isEmpty

/-! ### Data model (`app/models/base.py`) -/

/-- Enum `ModelProvider` from `app/models/base.py`. -/
inductive ModelProvider where
  | openai
  | anthropic
  | google
  | cohere
  | mistral
  | ollama
  | azure
  | bedrock
  | huggingface
  | custom
deriving DecidableEq

/-- String value of the Python enum member (`ModelProvider.value`). -/
def ModelProvider.value : ModelProvider → String
  | .openai => "openai"
  | .anthropic => "anthropic"
  | .google => "google"
  | .cohere => "cohere"
  | .mistral => "mistral"
  | .ollama => "ollama"
  | .azure => "azure"
  | .bedrock => "bedrock"
  | .huggingface => "huggingface"
  | .custom => "custom"

/-- Dataclass `ModelCapabilities` from `app/models/base.py` (fields used by the
registry and router; costs are per 1k tokens, modelled as rationals). -/
structure ModelCapabilities where
  supports_streaming : Bool := true
  supports_function_calling : Bool := false
  supports_vision : Bool := false
  supports_json_mode : Bool := false
  supports_system_messages : Bool := true
  max_context_length : Nat := 4096
  max_output_tokens : Nat := 2048
  cost_per_1k_input_tokens : ℚ := 0
  cost_per_1k_output_tokens : ℚ := 0
deriving DecidableEq

/-- Dataclass `ModelInfo` from `app/models/registry.py`. -/
structure ModelInfo where
  provider : ModelProvider
  model_name : String
  display_name : String
  capabilities : ModelCapabilities
  is_available : Bool := true
  last_health_check : Option Nat := none
  health_check_failures : Nat := 0
  tags : List String := []
deriving DecidableEq

/-- Average per-1k-token cost `(input + output) / 2` used throughout
`registry.py` and `router.py`. -/
def avgCost (c : ModelCapabilities) : ℚ :=
  (c.cost_per_1k_input_tokens + c.cost_per_1k_output_tokens) / 2

/-- Cost sum `input + output`, the sort key used by
`find_models_by_capability` and `_select_cost_optimized`. -/
def costSum (c : ModelCapabilities) : ℚ :=
  c.cost_per_1k_input_tokens + c.cost_per_1k_output_tokens

/-! ### Model registry (`app/models/registry.py`)

The `_models` dict of the registry is modelled as an insertion-ordered
association list (Python 3.7+ dict semantics: overwriting a key keeps its
position; a new key is appended). -/

/-- The `_models` mapping of `ModelRegistry`. -/
def Registry := List (String × ModelInfo)

/-- Python dict `d[k] = v`: replace in place when the key exists, append
otherwise. -/
def dictSet (k : String) (v : ModelInfo) : Registry → Registry
  | [] => [(k, v)]
  | (k', v') :: rest =>
      if k' = k then (k, v) :: rest else (k', v') :: dictSet k v rest

/-- Python dict `d.get(k)`. -/
def dictGet (k : String) : Registry → Option ModelInfo
  | [] => none
  | (k', v') :: rest => if k' = k then some v' else dictGet k rest

/-- Python `d.values()` in insertion order. -/
def dictValues (reg : Registry) : List ModelInfo :=
  reg.map Prod.snd

/-- Method `ModelRegistry.register_model`: unconditionally overwrites the entry at
`provider.value:model_name` with a fresh `ModelInfo` (availability `true`,
no recorded health check, zero failures). -/
def register_model (reg : Registry) (provider : ModelProvider)
    (model_name display_name : String) (capabilities : ModelCapabilities)
    (tags : List String) : Registry :=
  let model_id := provider.value ++ ":" ++ model_name
  dictSet model_id
    { provider := provider
      model_name := model_name
      display_name := display_name
      capabilities := capabilities
      tags := tags } reg

/-- Method `ModelRegistry.get_model`. -/
def get_model (reg : Registry) (model_id : String) : Option ModelInfo :=
  dictGet model_id reg

/-- Method `ModelRegistry.list_models(provider, tags, available_only)`.  Python
truthiness: a `None` filter or an empty tag set applies no filter. -/
def list_models (reg : Registry) (provider : Option ModelProvider := none)
    (tags : Option (List String) := none) (available_only : Bool := true) :
    List ModelInfo :=
  let models := dictValues reg
  let models := match provider with
    | none => models
    | some p => models.filter (fun m => m.provider = p)
  let models := match tags with
    | none => models
    | some ts =>
        if ts.isEmpty then models
        else models.filter (fun m => ts.any (fun t => m.tags.contains t))
  if available_only then models.filter (fun m => m.is_available) else models

/-- The capability dispatch inside `find_models_by_capability` (and
`_filter_models`): only the four named capability strings filter; any other
string passes every model. -/
def capabilityPasses (capability : String) (caps : ModelCapabilities) : Bool :=
  if capability = "function_calling" then caps.supports_function_calling
  else if capability = "vision" then caps.supports_vision
  else if capability = "streaming" then caps.supports_streaming
  else if capability = "json_mode" then caps.supports_json_mode
  else true

/-- Predicate applied per model by the filter loop of `find_models_by_capability`.
Python truthiness: a threshold of `None` — or numeric `0` — applies no
restriction. -/
def findPred (capability : String) (min_context_length : Option Nat)
    (max_cost : Option ℚ) (m : ModelInfo) : Bool :=
  m.is_available &&
  capabilityPasses capability m.capabilities &&
  (match min_context_length with
   | none => true
   | some c => decide (c = 0) || decide (c ≤ m.capabilities.max_context_length)) &&
  (match max_cost with
   | none => true
   | some q => decide (q = 0) || decide (avgCost m.capabilities ≤ q))

/-- Sort relation used by `find_models_by_capability` /
`_select_cost_optimized`: ascending input+output cost. -/
def costLE (a b : ModelInfo) : Prop :=
  costSum a.capabilities ≤ costSum b.capabilities

instance : DecidableRel costLE := fun a b =>
  inferInstanceAs (Decidable (costSum a.capabilities ≤ costSum b.capabilities))

instance : IsTotal ModelInfo costLE := ⟨fun a b => le_total _ _⟩

instance : IsTrans ModelInfo costLE := ⟨fun _ _ _ => le_trans⟩

/-- Method `ModelRegistry.find_models_by_capability`: filter the catalog, then sort
cheapest-first by input+output cost (Python `list.sort` is stable; so is
`insertionSort`). -/
def find_models_by_capability (reg : Registry) (capability : String)
    (min_context_length : Option Nat := none) (max_cost : Option ℚ := none) :
    List ModelInfo :=
  let matching := (dictValues reg).filter
    (findPred capability min_context_length max_cost)
  matching.insertionSort costLE

/-- The `speed_priority` substring table of `get_fastest_model`, probed in
dict insertion order with first match winning; unmatched names default
to rank 3. -/
def speedScore (m : ModelInfo) : Nat :=
  let n := strLower m.model_name
  if strHasSub "haiku" n then 0
  else if strHasSub "small" n then 1
  else if strHasSub "mini" n then 1
  else if strHasSub "turbo" n then 2
  else if strHasSub "medium" n then 3
  else if strHasSub "large" n then 4
  else if strHasSub "opus" n then 5
  else if strHasSub "ultra" n then 6
  else 3

/-- Sort relation of `get_fastest_model`. -/
def speedLE (a b : ModelInfo) : Prop := speedScore a ≤ speedScore b

instance : DecidableRel speedLE := fun a b =>
  inferInstanceAs (Decidable (speedScore a ≤ speedScore b))

instance : IsTotal ModelInfo speedLE := ⟨fun a b => Nat.le_total _ _⟩

instance : IsTrans ModelInfo speedLE := ⟨fun _ _ _ => Nat.le_trans⟩

/-- Method `ModelRegistry.get_fastest_model`: all *available* registry models,
intersected with `find_models_by_capability` for each required capability,
then sorted by the speed heuristic; first element.  Note it never sees the
provider/context/cost filters of the router. -/
def get_fastest_model (reg : Registry)
    (required_capabilities : List String) : Option ModelInfo :=
  let models := (dictValues reg).filter (fun m => m.is_available)
  let models := required_capabilities.foldl
    (fun ms c => ms.filter (fun m => (find_models_by_capability reg c).contains m))
    models
  if models.isEmpty then none
  else (models.insertionSort speedLE).head?

/-- Outcome of `provider.validate_config()` inside
`ModelRegistry.health_check`: it returns a boolean or raises. -/
inductive ProbeResult where
  | ok (healthy : Bool)
  | exn
deriving DecidableEq

/-- Method `ModelRegistry.health_check`, restricted to an already-registered model:
`probe = none` models an unbound provider (skip, report healthy, leave the
entry untouched); `probe = some r` models `validate_config` returning or
raising.  Returns the boolean result and the updated `ModelInfo`. -/
def health_check (m : ModelInfo) (probe : Option ProbeResult) (now : Nat) :
    Bool × ModelInfo :=
  match probe with
  | none => (true, m)
  | some .exn => (false, { m with health_check_failures := m.health_check_failures + 1 })
  | some (.ok is_healthy) =>
      let m := { m with is_available := is_healthy, last_health_check := some now }
      if is_healthy then
        (true, { m with health_check_failures := 0 })
      else
        let m := { m with health_check_failures := m.health_check_failures + 1 }
        if 3 ≤ m.health_check_failures then
          (false, { m with is_available := false })
        else
          (false, m)

/-! ### Model router (`app/models/router.py`) -/

/-- Dataclass `RoutingContext` from `app/models/router.py` (the strategy
selector is expressed by calling the per-strategy selection function). -/
structure RoutingContext where
  required_capabilities : List String := []
  min_context_length : Option Nat := none
  max_cost_per_1k_tokens : Option ℚ := none
  preferred_providers : Option (List ModelProvider) := none
  excluded_providers : Option (List ModelProvider) := none
  manual_model : Option String := none
deriving DecidableEq

/-- Method `ModelRouter._filter_models`: available models, then preferred/excluded
provider lists, minimum context length, maximum average cost, and the
required capability flags.  Python truthiness: `None`, an empty list, `0`
and `0.0` all skip the corresponding filter. -/
def filter_models (reg : Registry) (ctx : RoutingContext) : List ModelInfo :=
  let models := list_models reg none none true
  let models := match ctx.preferred_providers with
    | none => models
    | some ps => if ps.isEmpty then models
                 else models.filter (fun m => ps.contains m.provider)
  let models := match ctx.excluded_providers with
    | none => models
    | some ps => if ps.isEmpty then models
                 else models.filter (fun m => !(ps.contains m.provider))
  let models := match ctx.min_context_length with
    | none => models
    | some c => if c = 0 then models
                else models.filter (fun m => c ≤ m.capabilities.max_context_length)
  let models := match ctx.max_cost_per_1k_tokens with
    | none => models
    | some q => if q = 0 then models
                else models.filter (fun m => avgCost m.capabilities ≤ q)
  ctx.required_capabilities.foldl
    (fun ms c =>
      if c = "function_calling" then ms.filter (fun m => m.capabilities.supports_function_calling)
      else if c = "vision" then ms.filter (fun m => m.capabilities.supports_vision)
      else if c = "streaming" then ms.filter (fun m => m.capabilities.supports_streaming)
      else if c = "json_mode" then ms.filter (fun m => m.capabilities.supports_json_mode)
      else ms)
    models

/-- The `quality_map` lookup inside `_select_balanced.balance_score`:
substring keys probed in dict insertion order, first match wins,
default `0.5`. -/
def balancedQuality (name : String) : ℚ :=
  let n := strLower name
  if strHasSub "opus" n then 1
  else if strHasSub "ultra" n then 1
  else if strHasSub "large" n then 4/5
  else if strHasSub "turbo" n then 7/10
  else if strHasSub "medium" n then 3/5
  else if strHasSub "small" n then 2/5
  else if strHasSub "mini" n then 3/10
  else if strHasSub "haiku" n then 3/10
  else 1/2

/-- Score function `balance_score` from `ModelRouter._select_balanced` (lower is better):
`0.4 * min(avg_cost / 0.1, 1) + 0.6 * (1 - quality)`. -/
def balance_score (m : ModelInfo) : ℚ :=
  let cost_score := min (avgCost m.capabilities / (1/10)) 1
  (2/5) * cost_score + (3/5) * (1 - balancedQuality m.model_name)

/-- Sort relation of `_select_balanced`. -/
def balancedLE (a b : ModelInfo) : Prop := balance_score a ≤ balance_score b

instance : DecidableRel balancedLE := fun a b =>
  inferInstanceAs (Decidable (balance_score a ≤ balance_score b))

instance : IsTotal ModelInfo balancedLE := ⟨fun a b => le_total _ _⟩

instance : IsTrans ModelInfo balancedLE := ⟨fun _ _ _ => le_trans⟩

instance : IsRefl ModelInfo balancedLE := ⟨fun _ => le_refl _⟩

/-- Method `ModelRouter._select_balanced`: filter, sort ascending by
`balance_score`, take the first. -/
def select_balanced (reg : Registry) (ctx : RoutingContext) : Option ModelInfo :=
  if (filter_models reg ctx).isEmpty then none
  else ((filter_models reg ctx).insertionSort balancedLE).head?

/-- Method `ModelRouter._select_performance_optimized`: filters the candidates only
to test emptiness, then delegates to `registry.get_fastest_model` over the
whole catalog. -/
def select_performance_optimized (reg : Registry) (ctx : RoutingContext) :
    Option ModelInfo :=
  if (filter_models reg ctx).isEmpty then none
  else get_fastest_model reg ctx.required_capabilities

/-- Method `ModelRouter._select_round_robin`: pick `models[index % len]`, then
increment the shared index (left unchanged when no candidate exists, since
the method returns before the increment). -/
def select_round_robin (reg : Registry) (ctx : RoutingContext) (index : Nat) :
    Option ModelInfo × Nat :=
  if (filter_models reg ctx).isEmpty then (none, index)
  else ((filter_models reg ctx).get? (index % (filter_models reg ctx).length),
        index + 1)

/-! ### Agent data model (`app/agents/base.py`) -/

/-- Enum `AgentStatus`. -/
inductive AgentStatus where
  | idle
  | processing
  | completed
  | failed
  | timeout
deriving DecidableEq

/-- Enum `AgentType`. -/
inductive AgentType where
  | langgraph
  | langchain
  | n8n
  | crewai
  | autogen
  | llamaindex
  | custom
deriving DecidableEq

/-- Pydantic model `Citation`. -/
structure Citation where
  source : String
  content : String
  relevance_score : Option ℚ := none
deriving DecidableEq

/-- Pydantic model `AgentResponse`, with the fields the n8n adapter
populates (`execution_time` is wall-clock and is treated in the dedicated
pydantic-validation section below). -/
structure AgentResponse where
  answer : String
  citations : List Citation := []
  agent_id : String
  agent_type : AgentType
  status : AgentStatus := .completed
  tools_used : List String := []
  error : Option String := none
deriving DecidableEq

/-- Pydantic model `AgentStreamChunk` (the chunk-type tag and content; a
chunk also carries metadata and a timestamp, irrelevant to the claims). -/
structure AgentStreamChunk where
  chunk_type : String
  content : String
deriving DecidableEq

/-! ### Pydantic construction of `AgentResponse.execution_time`
(`app/agents/base.py`, `calculate_execution_time` validator)

Pydantic validates fields in definition order and exposes only the
previously-validated fields to a validator through `values`.  The field
definition order of `AgentResponse` is reproduced below; `execution_time`
(with its `pre=True, always=True` validator) is validated before
`started_at` and `completed_at`. -/

/-- Field definition order of the Python `AgentResponse` model. -/
def agentResponseFieldOrder : List String :=
  ["answer", "citations", "thoughts", "agent_id", "agent_type", "status",
   "execution_time", "tokens_used", "visualization_data", "tools_used",
   "metadata", "error", "started_at", "completed_at"]

/-- Names present in `values` when the validator of the named field runs:
exactly the fields defined (and hence validated) before it. -/
def valuesBefore (fieldName : String) : List String :=
  agentResponseFieldOrder.takeWhile (fun f => f ≠ fieldName)

/-- The `calculate_execution_time` validator body: derive
`completed_at - started_at` only when no value was supplied *and* both
timestamps are already in `values`; otherwise return the supplied value
unchanged. -/
def calculate_execution_time (v : Option ℚ) (values : List String)
    (started_at completed_at : ℚ) : Option ℚ :=
  if v = none ∧ values.contains "started_at" ∧ values.contains "completed_at" then
    some (completed_at - started_at)
  else v

/-- Validation of the required `execution_time : float` field when an
`AgentResponse` is constructed: the validator runs (`always=True`, so with
`None` when the field is absent), and a `None` result fails the required
`float` field check, reported by pydantic as "none is not an allowed value". -/
def validateExecutionTime (supplied : Option ℚ)
    (started_at completed_at : ℚ) : Except String ℚ :=
  match calculate_execution_time supplied (valuesBefore "execution_time")
      started_at completed_at with
  | some q => .ok q
  | none => .error "none is not an allowed value"

/-! ### n8n webhook adapter (`app/agents/adapters/n8n_adapter.py`)

The external webhook is modelled as a function from the attempt index to
an HTTP outcome: a status code with an optionally-parseable JSON body, or
a transport exception. -/

/-- JSON body shape the adapter reads from a successful webhook response. -/
structure WebhookData where
  answer : Option String := none
  citations : List Citation := []
  tools_used : List String := []
deriving DecidableEq

/-- Outcome of one webhook attempt: an HTTP response (whose body may fail to
parse as JSON, `body = none`), or a raised transport error. -/
inductive HttpResult where
  | resp (status : Nat) (body : Option WebhookData)
  | exn (msg : String)
deriving DecidableEq

/-- One iteration of the retry loop body: `client.post` →
`raise_for_status()` (httpx raises on any non-2xx status) →
`response.json()` (raises on a malformed body). -/
def attemptResult : HttpResult → Except String WebhookData
  | .exn m => .error m
  | .resp status body =>
      if 200 ≤ status ∧ status < 300 then
        match body with
        | some d => .ok d
        | none => .error "malformed JSON"
      else .error ("HTTP " ++ toString status)

/-- Loop body of `_call_webhook_with_retry`: attempt indices
`attempt, attempt+1, ...` while attempts remain (`remaining` counts the
loop iterations still to run, initially `retry_count`); a backoff sleep of
`2 ** attempt` seconds follows each failed attempt except the last
(`attempt < retry_count - 1`).  Returns the outcome together with the list
of sleep durations performed.  Exhaustion re-raises the last error
(`raise last_error`; when the loop never ran, `last_error` is `None` and
Python raises a `TypeError` instead). -/
def retryGo (server : Nat → HttpResult) (retry_count : Nat) :
    Nat → Nat → Option String → Except String WebhookData × List Nat
  | _, 0, last_error =>
      (.error (last_error.getD "TypeError: exceptions must derive from BaseException"), [])
  | attempt, remaining + 1, _ =>
      match attemptResult (server attempt) with
      | .ok d => (.ok d, [])
      | .error e =>
          if attempt < retry_count - 1 then
            let rest := retryGo server retry_count (attempt + 1) remaining (some e)
            (rest.1, 2 ^ attempt :: rest.2)
          else
            retryGo server retry_count (attempt + 1) remaining (some e)

/-- Function `N8NAdapter._call_webhook_with_retry`: up to `retry_count`
attempts with exponential backoff; re-raises the last error after
exhaustion. -/
def call_webhook_with_retry (server : Nat → HttpResult) (retry_count : Nat) :
    Except String WebhookData × List Nat :=
  retryGo server retry_count 0 retry_count none

/-- Method `N8NAdapter.execute` downstream of the webhook call: a successful call
yields a completed response built from the JSON body (missing `answer`
defaults to `"No response from workflow"`); any exception is caught and
converted into a failed response with an apologetic answer and the error
text. -/
def execute (agent_id : String) (outcome : Except String WebhookData) :
    AgentResponse :=
  match outcome with
  | .ok data =>
      { answer := data.answer.getD "No response from workflow"
        citations := data.citations
        agent_id := agent_id
        agent_type := .n8n
        status := .completed
        tools_used := data.tools_used
        error := none }
  | .error e =>
      { answer := "I apologize, but the workflow encountered an error: " ++ e
        agent_id := agent_id
        agent_type := .n8n
        status := .failed
        error := some e }

/-- Method `N8NAdapter.execute` against a concrete webhook server: run the retry
loop, then build the response. -/
def executeAgainst (agent_id : String) (server : Nat → HttpResult)
    (retry_count : Nat) : AgentResponse :=
  execute agent_id (call_webhook_with_retry server retry_count).1

/-- Method `N8NAdapter.execute_streaming` (no exception occurs in chunk
production itself, which is pure): a status chunk, the answer of the
`execute` response re-split on `". "` with blank sentences dropped, a citations chunk when
citations exist, and a final completion chunk. -/
def execute_streaming (agent_id : String)
    (outcome : Except String WebhookData) : List AgentStreamChunk :=
  let response := execute agent_id outcome
  let sentences := pySplit response.answer ". "
  let textChunks := (sentences.filter (fun s => strTruthy (pyStrip s))).map
    (fun s => AgentStreamChunk.mk "text" (s ++ ". "))
  [AgentStreamChunk.mk "status" "Calling n8n workflow..."] ++
  textChunks ++
  (if response.citations.isEmpty then []
   else [AgentStreamChunk.mk "citations" ""]) ++
  [AgentStreamChunk.mk "completion" ""]

/-! ### Sort relation on average cost, used to state the sortedness of
`find_models_by_capability` -/

/-- Ascending average per-1k-token cost. -/
def avgLE (a b : ModelInfo) : Prop :=
  avgCost a.capabilities ≤ avgCost b.capabilities

/-! ### Concrete instances used by the claim theorems, counterexamples and
witnesses -/

/-- Freshly registered model with default health state. -/
def sonnetFresh : ModelInfo :=
  { provider := .anthropic
    model_name := "claude-3-sonnet-20240229"
    display_name := "Claude 3 Sonnet"
    capabilities := {} }

/-- Webhook endpoint that returns HTTP 500 on the first three attempts and
HTTP 200 with body containing answer "ok" from the fourth attempt on. -/
def server3x500 : Nat → HttpResult := fun n =>
  if n < 3 then .resp 500 none else .resp 200 (some { answer := some "ok" })

/-- Candidate model tagged with "opus" at an average cost of $0.09 per 1k
tokens. -/
def opusM : ModelInfo :=
  { provider := .anthropic
    model_name := "test-opus"
    display_name := "Test Opus"
    capabilities := { cost_per_1k_input_tokens := 9/100
                      cost_per_1k_output_tokens := 9/100 } }

/-- Candidate model tagged with "haiku" at an average cost of $0.001 per 1k
tokens. -/
def haikuM : ModelInfo :=
  { provider := .anthropic
    model_name := "test-haiku"
    display_name := "Test Haiku"
    capabilities := { cost_per_1k_input_tokens := 1/1000
                      cost_per_1k_output_tokens := 1/1000 } }

/-- Registry holding exactly the two balanced-strategy candidates. -/
def regBal : Registry :=
  register_model
    (register_model [] .anthropic "test-opus" "Test Opus" opusM.capabilities [])
    .anthropic "test-haiku" "Test Haiku" haikuM.capabilities []

/-- Fast-heuristic model from a provider the routing context excludes. -/
def fastA : ModelInfo :=
  { provider := .openai
    model_name := "fast-haiku"
    display_name := "Fast"
    capabilities := {} }

/-- Slow-heuristic model from the only allowed provider. -/
def slowB : ModelInfo :=
  { provider := .anthropic
    model_name := "big-opus"
    display_name := "Slow"
    capabilities := {} }

/-- Registry holding `fastA` and `slowB`. -/
def regPerf : Registry :=
  register_model
    (register_model [] .openai "fast-haiku" "Fast" fastA.capabilities [])
    .anthropic "big-opus" "Slow" slowB.capabilities []

/-- Routing context excluding the provider of `fastA`. -/
def ctxPerf : RoutingContext :=
  { excluded_providers := some [.openai] }

/-- Registry with a fixed 3-model candidate set for round-robin. -/
def regRR : Registry :=
  register_model
    (register_model
      (register_model [] .openai "model-a" "A" {} [])
      .openai "model-b" "B" {} [])
    .openai "model-c" "C" {} []

/-- Function-calling capability snapshot, expensive. -/
def capsFC1 : ModelCapabilities :=
  { supports_function_calling := true
    cost_per_1k_input_tokens := 3/100
    cost_per_1k_output_tokens := 6/100 }

/-- Function-calling capability snapshot, cheap. -/
def capsFC2 : ModelCapabilities :=
  { supports_function_calling := true
    cost_per_1k_input_tokens := 1/1000
    cost_per_1k_output_tokens := 2/1000 }

/-- Registered form of the expensive function-calling model. -/
def fcX1 : ModelInfo :=
  { provider := .openai
    model_name := "x1"
    display_name := "X1"
    capabilities := capsFC1 }

/-- Registered form of the cheap function-calling model. -/
def fcX2 : ModelInfo :=
  { provider := .openai
    model_name := "x2"
    display_name := "X2"
    capabilities := capsFC2 }

/-- Registry with two function-calling models (registered expensive-first)
and one model without function calling. -/
def regFC : Registry :=
  register_model
    (register_model
      (register_model [] .openai "x1" "X1" capsFC1 [])
      .openai "x2" "X2" capsFC2 [])
    .openai "x3" "X3" {} []

/-- Registry already holding an entry under `openai:gpt-4`. -/
def regDup : Registry :=
  register_model [] .openai "gpt-4" "GPT-4" {} []

/-- Webhook JSON body with no `answer` key. -/
def noAnswerData : WebhookData :=
  { answer := none }

/-! ### Helper lemmas -/

/-- Writing a key into the modelled dict and reading it back yields the
written value. -/
theorem dictGet_dictSet_self (k : String) (v : ModelInfo) (l : Registry) :
    dictGet k (dictSet k v l) = some v := by
  induction l with
  | nil => simp [dictSet, dictGet]
  | cons hd tl ih =>
      obtain ⟨k', v'⟩ := hd
      by_cases hk : k' = k
      · simp [dictSet, dictGet, hk]
      · simp [dictSet, dictGet, hk, ih]

/-- Head of an insertion sort under a total, transitive, reflexive relation
is a member of the list that the relation places below every member. -/
theorem head_insertionSort_min {α : Type} {r : α → α → Prop} [DecidableRel r]
    [IsTotal α r] [IsTrans α r] [IsRefl α r] {l : List α} {m : α}
    (h : (l.insertionSort r).head? = some m) :
    m ∈ l ∧ ∀ b ∈ l, r m b := by
  have hperm := List.perm_insertionSort r l
  have hsorted := List.sorted_insertionSort r l
  cases hs : l.insertionSort r with
  | nil => rw [hs] at h; cases h
  | cons a t =>
      rw [hs] at h hperm hsorted
      have ham : a = m := by simpa using h
      subst ham
      refine ⟨hperm.mem_iff.mp (List.mem_cons_self a t), ?_⟩
      intro b hb
      have hbmem : b ∈ a :: t := hperm.mem_iff.mpr hb
      rcases List.mem_cons.mp hbmem with hba | hbt
      · rw [hba]; exact IsRefl.refl a
      · exact (List.sorted_cons.mp hsorted).1 b hbt

/-- Ordering by cost sum coincides with ordering by average cost. -/
theorem costLE_imp_avgLE {a b : ModelInfo} (h : costLE a b) : avgLE a b := by
  unfold costLE costSum at h
  unfold avgLE avgCost
  linarith

/-- Unfolding of `findPred` at capability `"function_calling"` when neither
threshold is the (truthiness-skipped) zero value. -/
theorem findPred_fc_iff {minCtx : Option Nat} {maxCost : Option ℚ}
    (hctx : minCtx ≠ some 0) (hcost : maxCost ≠ some 0) (m : ModelInfo) :
    findPred "function_calling" minCtx maxCost m = true ↔
      (m.is_available = true ∧
       m.capabilities.supports_function_calling = true ∧
       (∀ c, minCtx = some c → c ≤ m.capabilities.max_context_length) ∧
       (∀ q, maxCost = some q → avgCost m.capabilities ≤ q)) := by
  unfold findPred capabilityPasses
  cases minCtx with
  | none =>
      cases maxCost with
      | none => simp
      | some q =>
          have hq : ¬ q = 0 := fun hh => hcost (by rw [hh])
          simp [hq, and_assoc]
  | some c =>
      have hc : ¬ c = 0 := fun hh => hctx (by rw [hh])
      cases maxCost with
      | none => simp [hc, and_assoc]
      | some q =>
          have hq : ¬ q = 0 := fun hh => hcost (by rw [hh])
          simp [hc, hq, and_assoc]

/-! ### Claim theorems -/

/-- Claim C1, counterexample to the statement as frozen: on an internal
failure (an unreachable endpoint, surfaced as a caught transport error) the
simulated stream of `execute_streaming` consists of a status chunk, the
apologetic answer of the failed `execute` response as a text chunk, and a
terminal *completion* chunk — not a terminal error chunk.  The inner
`execute` call swallows the failure, so the error branch of
`execute_streaming` is never reached by a backend failure. -/
theorem C1_counterexample :
    (execute_streaming "n8n-workflow" (Except.error "Connection refused")).map
        AgentStreamChunk.chunk_type = ["status", "text", "completion"] ∧
    (execute "n8n-workflow" (Except.error "Connection refused")).status =
      AgentStatus.failed := by
  exact ⟨by decide, by decide⟩

/-- Claim C1, amended: for every agent id and webhook outcome, `execute` is
total (never raises) and on failure returns status `failed`, a populated
error equal to the exception text, and an apologetic answer embedding it;
`execute_streaming` is likewise total, always yields a non-empty finite
stream, and its terminal chunk is a *completion* chunk — on internal
failure the failed answer is streamed as text and the stream still ends
with a completion chunk rather than an error chunk. -/
theorem C1_execute_total_and_stream_terminal (agent_id : String)
    (outcome : Except String WebhookData) :
    (∀ e, outcome = Except.error e →
        (execute agent_id outcome).status = AgentStatus.failed ∧
        (execute agent_id outcome).error = some e ∧
        (execute agent_id outcome).answer =
          "I apologize, but the workflow encountered an error: " ++ e) ∧
    (∀ d, outcome = Except.ok d →
        (execute agent_id outcome).status = AgentStatus.completed ∧
        (execute agent_id outcome).error = none) ∧
    execute_streaming agent_id outcome ≠ [] ∧
    (execute_streaming agent_id outcome).getLast? =
      some { chunk_type := "completion", content := "" } := by
  refine ⟨?_, ?_, ?_, ?_⟩
  · rintro e rfl
    exact ⟨rfl, rfl, rfl⟩
  · rintro d rfl
    exact ⟨rfl, rfl⟩
  · simp [execute_streaming]
  · simp only [execute_streaming]
    exact List.getLast?_concat _

/-- Witness for C1 at a concrete transport failure. -/
theorem C1_witness :
    (execute "n8n-workflow" (Except.error "timeout")).status =
      AgentStatus.failed ∧
    (execute "n8n-workflow" (Except.error "timeout")).error = some "timeout" ∧
    (execute_streaming "n8n-workflow" (Except.error "timeout")).getLast? =
      some { chunk_type := "completion", content := "" } :=
  ⟨((C1_execute_total_and_stream_terminal "n8n-workflow"
        (Except.error "timeout")).1 "timeout" rfl).1,
   ((C1_execute_total_and_stream_terminal "n8n-workflow"
        (Except.error "timeout")).1 "timeout" rfl).2.1,
   (C1_execute_total_and_stream_terminal "n8n-workflow"
        (Except.error "timeout")).2.2.2⟩

/-- Claim C2 (code bug): starting from a freshly registered model bound to
a provider, a single failed health check (`validate_config` returning
`False`) already sets `is_available` to `false` with the failure count at
1 — the line `model.is_available = is_healthy` runs before the
3-consecutive-failures branch, making that branch dead.  The reset half of
the claim does hold: one subsequent success restores `is_available = true`
and `health_check_failures = 0`. -/
theorem C2_first_failure_flips_availability :
    sonnetFresh.is_available = true ∧
    sonnetFresh.health_check_failures = 0 ∧
    (health_check sonnetFresh (some (ProbeResult.ok false)) 100).2.is_available
      = false ∧
    (health_check sonnetFresh
        (some (ProbeResult.ok false)) 100).2.health_check_failures = 1 ∧
    (health_check (health_check sonnetFresh (some (ProbeResult.ok false)) 100).2
        (some (ProbeResult.ok true)) 200).2.is_available = true ∧
    (health_check (health_check sonnetFresh (some (ProbeResult.ok false)) 100).2
        (some (ProbeResult.ok true)) 200).2.health_check_failures = 0 := by
  decide

/-- Claim C3, counterexample to the statement as frozen: against an
endpoint answering HTTP 500 on the first three attempts and then 200 with
answer "ok", `retry_count = 3` spends all three attempts on 500 responses,
so `execute` returns status `failed` — not `completed` with answer
"ok". -/
theorem C3_counterexample :
    (executeAgainst "n8n-workflow" server3x500 3).status = AgentStatus.failed ∧
    (executeAgainst "n8n-workflow" server3x500 3).answer ≠ "ok" := by
  exact ⟨by decide, by decide⟩

/-- Claim C3, amended: with the same endpoint (HTTP 500 three times, then
200 with answer "ok"), `retry_count = 4` succeeds on the 4th attempt with
status `completed` and answer "ok" after backoff sleeps of `2^0, 2^1, 2^2`
seconds; `retry_count = 3` and `retry_count = 2` exhaust their attempts and
`execute` returns status `failed` with the populated error "HTTP 500";
between consecutive attempts the sleep doubles as `2^attempt`. -/
theorem C3_retry_and_backoff :
    (executeAgainst "n8n-workflow" server3x500 4).status =
      AgentStatus.completed ∧
    (executeAgainst "n8n-workflow" server3x500 4).answer = "ok" ∧
    (call_webhook_with_retry server3x500 4).2 = [2 ^ 0, 2 ^ 1, 2 ^ 2] ∧
    (executeAgainst "n8n-workflow" server3x500 3).status = AgentStatus.failed ∧
    (executeAgainst "n8n-workflow" server3x500 3).error = some "HTTP 500" ∧
    (call_webhook_with_retry server3x500 3).2 = [2 ^ 0, 2 ^ 1] ∧
    (executeAgainst "n8n-workflow" server3x500 2).status = AgentStatus.failed ∧
    (executeAgainst "n8n-workflow" server3x500 2).error = some "HTTP 500" ∧
    (call_webhook_with_retry server3x500 2).2 = [2 ^ 0] := by
  decide

/-- Claim C4, counterexample to the statement as frozen: under the
documented weighting `0.4*cost + 0.6*(1 - quality)` the "opus" model at
$0.09/1k average scores `0.36` while the "haiku" model at $0.001/1k
average scores `0.424`, so the *opus* model ranks first — the balanced
strategy selects it, not the haiku model. -/
theorem C4_counterexample :
    select_balanced regBal {} = some opusM ∧
    balance_score opusM = 9/25 ∧
    balance_score haikuM = 53/125 ∧
    balance_score opusM < balance_score haikuM := by
  refine ⟨?_, ?_, ?_, ?_⟩
  · simp +decide [select_balanced, filter_models, list_models, dictValues,
      regBal, register_model, dictSet, List.insertionSort, List.orderedInsert,
      balancedLE, balance_score, balancedQuality, avgCost, opusM, haikuM]
    norm_num
  · simp +decide [balance_score, balancedQuality, avgCost, opusM]
    norm_num
  · simp +decide [balance_score, balancedQuality, avgCost, haikuM]
    norm_num
  · simp +decide [balance_score, balancedQuality, avgCost, opusM, haikuM]
    norm_num

/-- Claim C4, amended: the balanced strategy scores each filtered candidate
by `balance_score` (0.4 times the cost normalized against the $0.10
ceiling and clipped to [0,1], plus 0.6 times one minus the quality tier)
and selects a candidate whose score is minimal; in the two-candidate
scenario of the claim the "opus" model (score 0.36) ranks first, below the
"haiku" model (score 0.424). -/
theorem C4_balanced_lowest_score (reg : Registry) (ctx : RoutingContext)
    (m : ModelInfo) (h : select_balanced reg ctx = some m) :
    m ∈ filter_models reg ctx ∧
    ∀ b ∈ filter_models reg ctx, balance_score m ≤ balance_score b := by
  unfold select_balanced at h
  split at h
  · cases h
  · exact head_insertionSort_min h

/-- Witness for C4 on the two-candidate scenario from the claim. -/
theorem C4_witness :
    select_balanced regBal {} = some opusM ∧
    opusM ∈ filter_models regBal {} ∧
    balance_score opusM ≤ balance_score haikuM :=
  have h : select_balanced regBal {} = some opusM := by
    simp +decide [select_balanced, filter_models, list_models, dictValues,
      regBal, register_model, dictSet, List.insertionSort, List.orderedInsert,
      balancedLE, balance_score, balancedQuality, avgCost, opusM, haikuM]
    norm_num
  have hmem : haikuM ∈ filter_models regBal {} := by
    simp +decide [filter_models, list_models, dictValues, regBal,
      register_model, dictSet, opusM, haikuM]
  ⟨h, (C4_balanced_lowest_score regBal {} opusM h).1,
   (C4_balanced_lowest_score regBal {} opusM h).2 haikuM hmem⟩

/-- Claim C5 (code bug): constructing an `AgentResponse` without an
explicit `execution_time` fails pydantic validation instead of deriving
the value: the `pre=True, always=True` validator for `execution_time` runs
before `started_at` and `completed_at` are validated (field definition
order), so its derivation branch is dead and the `None` it returns is
rejected for the required `float` field. -/
theorem C5_missing_execution_time_rejected :
    validateExecutionTime none 0 5 =
      Except.error "none is not an allowed value" ∧
    (valuesBefore "execution_time").contains "started_at" = false ∧
    (valuesBefore "execution_time").contains "completed_at" = false := by
  exact ⟨rfl, by decide, by decide⟩

/-- Claim C6 (code bug): with two available models — a "haiku"-named one
from an excluded provider and an "opus"-named one from an allowed
provider — the capability-filtered candidate set contains only the allowed
model, yet `_select_performance_optimized` returns the excluded-provider
model, because after the emptiness check it delegates to
`registry.get_fastest_model` over the whole catalog and discards the
filtered list. -/
theorem C6_performance_optimized_escapes_filter :
    filter_models regPerf ctxPerf = [slowB] ∧
    select_performance_optimized regPerf ctxPerf = some fastA ∧
    ctxPerf.excluded_providers = some [ModelProvider.openai] ∧
    fastA.provider = ModelProvider.openai := by
  decide

/-- Claim C7: over a fixed filtered candidate set of 3 available models,
round-robin selection starting from index 0 returns the candidates in
strict rotation — call 1 the 1st, call 2 the 2nd, call 3 the 3rd, call 4
the 1st again — incrementing the shared index on every call. -/
theorem C7_round_robin_rotation (reg : Registry) (ctx : RoutingContext)
    (h : (filter_models reg ctx).length = 3) :
    select_round_robin reg ctx 0 = ((filter_models reg ctx).get? 0, 1) ∧
    select_round_robin reg ctx 1 = ((filter_models reg ctx).get? 1, 2) ∧
    select_round_robin reg ctx 2 = ((filter_models reg ctx).get? 2, 3) ∧
    select_round_robin reg ctx 3 = ((filter_models reg ctx).get? 0, 4) := by
  have hne : (filter_models reg ctx).isEmpty = false := by
    cases hf : filter_models reg ctx with
    | nil => rw [hf] at h; cases h
    | cons a t => rfl
  refine ⟨?_, ?_, ?_, ?_⟩ <;> simp [select_round_robin, hne, h]

/-- Witness for C7 on a concrete 3-model registry. -/
theorem C7_witness :
    select_round_robin regRR {} 0 = ((filter_models regRR {}).get? 0, 1) ∧
    select_round_robin regRR {} 1 = ((filter_models regRR {}).get? 1, 2) ∧
    select_round_robin regRR {} 2 = ((filter_models regRR {}).get? 2, 3) ∧
    select_round_robin regRR {} 3 = ((filter_models regRR {}).get? 0, 4) :=
  C7_round_robin_rotation regRR {} (by decide)

/-- Claim C8: for every registry and every given-but-nonzero thresholds,
`find_models_by_capability "function_calling"` returns a permutation of
exactly the available registered models whose capability snapshot has
`supports_function_calling = true` and which meet the thresholds, and the
returned list is sorted ascending by average per-1k-token cost. -/
theorem C8_find_models_filter_and_sort (reg : Registry)
    (minCtx : Option Nat) (maxCost : Option ℚ)
    (hctx : minCtx ≠ some 0) (hcost : maxCost ≠ some 0) :
    (find_models_by_capability reg "function_calling" minCtx maxCost).Perm
      ((dictValues reg).filter (findPred "function_calling" minCtx maxCost)) ∧
    (∀ m, m ∈ find_models_by_capability reg "function_calling" minCtx maxCost ↔
      (m ∈ dictValues reg ∧ m.is_available = true ∧
       m.capabilities.supports_function_calling = true ∧
       (∀ c, minCtx = some c → c ≤ m.capabilities.max_context_length) ∧
       (∀ q, maxCost = some q → avgCost m.capabilities ≤ q))) ∧
    List.Sorted avgLE
      (find_models_by_capability reg "function_calling" minCtx maxCost) := by
  unfold find_models_by_capability
  refine ⟨List.perm_insertionSort _ _, ?_, ?_⟩
  · intro m
    rw [(List.perm_insertionSort costLE _).mem_iff, List.mem_filter,
        findPred_fc_iff hctx hcost m]
  · have hs := List.sorted_insertionSort costLE
      ((dictValues reg).filter (findPred "function_calling" minCtx maxCost))
    exact List.Pairwise.imp (fun hab => costLE_imp_avgLE hab) hs

/-- Witness for C8 on a registry with two function-calling models
(registered expensive-first) and one without: the cheap model is returned
first. -/
theorem C8_witness :
    find_models_by_capability regFC "function_calling" none none
      = [fcX2, fcX1] ∧
    (find_models_by_capability regFC "function_calling" none none).Perm
      ((dictValues regFC).filter (findPred "function_calling" none none)) ∧
    List.Sorted avgLE
      (find_models_by_capability regFC "function_calling" none none) :=
  have hthm := C8_find_models_filter_and_sort regFC none none (by decide)
    (by decide)
  have hval : find_models_by_capability regFC "function_calling" none none
      = [fcX2, fcX1] := by
    simp +decide [find_models_by_capability, findPred, capabilityPasses,
      dictValues, regFC, register_model, dictSet, capsFC1, capsFC2, fcX1,
      fcX2, List.insertionSort, List.orderedInsert, costLE, costSum]
    norm_num
  ⟨hval, hthm.1, hthm.2.2⟩

/-- Claim C9: re-registering an already registered `(provider, model_name)`
never fails — `register_model` is a total function that silently replaces
the entry, and the replacement carries a fresh health state:
`is_available = true`, `health_check_failures = 0`,
`last_health_check = none`. -/
theorem C9_reregistration_replaces (reg : Registry) (p : ModelProvider)
    (model_name display_name : String) (caps : ModelCapabilities)
    (tags : List String)
    (h : (get_model reg (p.value ++ ":" ++ model_name)).isSome = true) :
    get_model (register_model reg p model_name display_name caps tags)
        (p.value ++ ":" ++ model_name) =
      some { provider := p, model_name := model_name,
             display_name := display_name, capabilities := caps,
             is_available := true, last_health_check := none,
             health_check_failures := 0, tags := tags } := by
  unfold get_model register_model
  exact dictGet_dictSet_self _ _ _

/-- Witness for C9: overwrite the existing `openai:gpt-4` entry. -/
theorem C9_witness :
    get_model (register_model regDup ModelProvider.openai "gpt-4"
        "GPT-4 Refreshed" capsFC1 ["fresh"])
        (ModelProvider.openai.value ++ ":" ++ "gpt-4") =
      some { provider := ModelProvider.openai, model_name := "gpt-4",
             display_name := "GPT-4 Refreshed", capabilities := capsFC1,
             is_available := true, last_health_check := none,
             health_check_failures := 0, tags := ["fresh"] } :=
  C9_reregistration_replaces regDup ModelProvider.openai "gpt-4"
    "GPT-4 Refreshed" capsFC1 ["fresh"] (by decide)

/-- Claim C10: a 2xx webhook response with valid JSON lacking the `answer`
key is treated as success — `execute` returns status `completed`, answer
exactly "No response from workflow" and no error; the first such response
also ends the retry loop immediately with no backoff sleeps. -/
theorem C10_missing_answer_completed (agent_id : String) (d : WebhookData)
    (h : d.answer = none) :
    (execute agent_id (Except.ok d)).status = AgentStatus.completed ∧
    (execute agent_id (Except.ok d)).answer = "No response from workflow" ∧
    (execute agent_id (Except.ok d)).error = none ∧
    ∀ rc : Nat,
      call_webhook_with_retry (fun _ => HttpResult.resp 200 (some d)) (rc + 1)
        = (Except.ok d, []) := by
  refine ⟨rfl, ?_, rfl, ?_⟩
  · simp [execute, h]
  · intro rc
    simp [call_webhook_with_retry, retryGo, attemptResult]

/-- Witness for C10 at a concrete body without `answer` and
`retry_count = 3`. -/
theorem C10_witness :
    (execute "n8n-workflow" (Except.ok noAnswerData)).status =
      AgentStatus.completed ∧
    (execute "n8n-workflow" (Except.ok noAnswerData)).answer =
      "No response from workflow" ∧
    (execute "n8n-workflow" (Except.ok noAnswerData)).error = none ∧
    call_webhook_with_retry (fun _ => HttpResult.resp 200 (some noAnswerData)) 3
      = (Except.ok noAnswerData, []) :=
  have h := C10_missing_answer_completed "n8n-workflow" noAnswerData rfl
  ⟨h.1, h.2.1, h.2.2.1, h.2.2.2 2⟩

end DashboardX
